import Mathlib

/-!
Verification of the secure HTTPS static file server (secure_server.py).

The Python source is shallowly embedded: each handler and server method is
translated to a pure Lean function. The filesystem, wall clock and network are
passed explicitly as values. Behaviour that the source reaches through the
Python standard library (the base-class MIME guess, the error page, date
formatting) is modelled by small Lean functions whose doc comments say what
they stand for.
-/

/-- Splits a list of characters at every occurrence of the separator. -/
def splitOnChar (sep : Char) : List Char → List (List Char)
  | [] => [[]]
  | c :: cs =>
    let r := splitOnChar sep cs
    if c = sep then [] :: r
    else
      match r with
      | [] => [[c]]
      | h :: t => (c :: h) :: t

/-- Whether the first character list is an initial segment of the second. -/
def starts_with_chars : List Char → List Char → Bool
  | [], _ => true
  | _ :: _, [] => false
  | a :: as, b :: bs => a == b && starts_with_chars as bs

/-- Model of Python str.endswith for a single suffix string. -/
def ends_with (s suf : String) : Bool :=
  starts_with_chars suf.data.reverse s.data.reverse

/-- Lower-cases every character, as Python str.lower does on ASCII input. -/
def lower_str (s : String) : String :=
  String.mk (s.data.map Char.toLower)

/-- The fixed Content-Security-Policy value built in end_headers
(source lines 41 to 52). -/
def csp_value : String :=
  "default-src \x27self\x27; script-src \x27self\x27 \x27unsafe-inline\x27; style-src \x27self\x27 \x27unsafe-inline\x27; connect-src \x27self\x27 wss: ws:; media-src \x27self\x27 blob:; img-src \x27self\x27 data: blob:; font-src \x27self\x27; object-src \x27none\x27; base-uri \x27self\x27"

/-- The nine security headers that SecureWebRTCHandler.end_headers adds to every
response, in source order (source lines 29 to 52). -/
def security_header_set : List (String × String) :=
  [("Access-Control-Allow-Origin", "*"),
   ("Access-Control-Allow-Methods", "GET, POST, OPTIONS"),
   ("Access-Control-Allow-Headers", "Content-Type"),
   ("X-Content-Type-Options", "nosniff"),
   ("X-Frame-Options", "DENY"),
   ("X-XSS-Protection", "1; mode=block"),
   ("Referrer-Policy", "strict-origin-when-cross-origin"),
   ("Permissions-Policy", "camera=(self), microphone=(self), geolocation=()"),
   ("Content-Security-Policy", csp_value)]

/-- The Strict-Transport-Security header sent only over HTTPS (source line 56). -/
def hsts_header : String × String :=
  ("Strict-Transport-Security", "max-age=31536000; includeSubDomains")

/-- Everything end_headers appends: the fixed security-header set, plus HSTS when
the server session is HTTPS (source lines 26 to 58). -/
def end_headers_added (https : Bool) : List (String × String) :=
  security_header_set ++ (if https then [hsts_header] else [])

/-- An emitted HTTP response: status line, the headers sent before the body, and
the body bytes (none for the preflight reply). -/
structure Response where
  status : Nat
  headers : List (String × String)
  body : Option String
  deriving DecidableEq

/-- Lookup in an association list of extension and content-type pairs. -/
def table_lookup : List (String × String) → String → Option String
  | [], _ => none
  | (k, v) :: rest, e => if k == e then some v else table_lookup rest e

/-- Modelled from the Python standard library: the subset of the mimetypes
default map that is relevant to this server. Keys are lower-case extensions;
mimetypes looks extensions up case-insensitively. -/
def mimetypes_table : List (String × String) :=
  [(".html", "text/html"), (".htm", "text/html"), (".css", "text/css"),
   (".js", "text/javascript"), (".mjs", "text/javascript"),
   (".json", "application/json"), (".wasm", "application/wasm"),
   (".png", "image/png"), (".jpg", "image/jpeg"), (".jpeg", "image/jpeg"),
   (".svg", "image/svg+xml"), (".ico", "image/vnd.microsoft.icon"),
   (".webp", "image/webp"), (".mp4", "video/mp4"), (".webm", "video/webm"),
   (".gif", "image/gif"), (".txt", "text/plain")]

/-- Model of posixpath.splitext restricted to the extension (with its leading
dot); leading dots of the final path component do not start an extension. -/
def splitext_ext (p : String) : String :=
  let base := (splitOnChar '/' p.data).getLastD []
  let parts := splitOnChar '.' base
  match parts with
  | [] => ""
  | [_] => ""
  | _ =>
    if parts.dropLast.all (fun w => w.isEmpty) then ""
    else String.mk ('.' :: parts.getLastD [])

/-- Modelled from the Python standard library: SimpleHTTPRequestHandler.guess_type,
the base-class method the handler overrides and falls back to. It consults the
encodings table on the exact extension, then the mimetypes map on the
lower-cased extension, and falls back to application/octet-stream. -/
def super_guess_type (path : String) : String :=
  let ext := splitext_ext path
  if ext == ".gz" then "application/gzip"
  else if ext == ".Z" then "application/octet-stream"
  else if ext == ".bz2" then "application/x-bzip2"
  else if ext == ".xz" then "application/x-xz"
  else
    match table_lookup mimetypes_table (lower_str ext) with
    | some t => t
    | none => "application/octet-stream"

/-- SecureWebRTCHandler.guess_type (source lines 60 to 98): the base-class guess
is computed first, then a chain of case-sensitive endswith checks overrides it
with the WebRTC-specific content types. -/
def guess_type (path : String) : String × Option String :=
  let mimetype := super_guess_type path
  let encoding : Option String := none
  if ends_with path ".html" || ends_with path ".htm" then
    ("text/html; charset=utf-8", encoding)
  else if ends_with path ".css" then ("text/css; charset=utf-8", encoding)
  else if ends_with path ".js" then ("application/javascript; charset=utf-8", encoding)
  else if ends_with path ".mjs" then ("application/javascript; charset=utf-8", encoding)
  else if ends_with path ".json" then ("application/json; charset=utf-8", encoding)
  else if ends_with path ".wasm" then ("application/wasm", encoding)
  else if ends_with path ".ico" then ("image/x-icon", encoding)
  else if ends_with path ".png" then ("image/png", encoding)
  else if ends_with path ".jpg" || ends_with path ".jpeg" then ("image/jpeg", encoding)
  else if ends_with path ".svg" then ("image/svg+xml", encoding)
  else if ends_with path ".webp" then ("image/webp", encoding)
  else if ends_with path ".mp4" then ("video/mp4", encoding)
  else if ends_with path ".webm" then ("video/webm", encoding)
  else (mimetype, encoding)

/-- Size, modification time and bytes of a regular file. -/
structure FileInfo where
  size : Nat
  mtime : Nat
  content : String
  deriving DecidableEq

/-- A filesystem entry: a regular file (with an openability flag modelling
permission or race failures of open) or a directory. -/
inductive Entry where
  | file (info : FileInfo) (openable : Bool)
  | dir
  deriving DecidableEq

/-- The filesystem visible to the handler, a partial map from absolute paths. -/
structure FS where
  lookup : String → Option Entry

/-- Drops empty and current-directory components and resolves parent-directory
components, as posixpath.normpath does inside translate_path for the absolute
request paths this handler receives. -/
def normpath_words (ws : List (List Char)) : List (List Char) :=
  ws.foldl
    (fun acc w =>
      if w.isEmpty || w == ['.'] then acc
      else if w == ['.', '.'] then acc.dropLast
      else acc ++ [w]) []

/-- Modelled from the Python standard library: SimpleHTTPRequestHandler.translate_path.
The query and fragment are cut off, the path is normalised and its components
are joined below the document root. Percent-decoding is not modelled; no claim
involves an encoded path. -/
def translate_path (root : String) (p : String) : String :=
  let chars := p.data.takeWhile (fun c => c != '?' && c != '#')
  (normpath_words (splitOnChar '/' chars)).foldl
    (fun acc w => acc ++ "/" ++ String.mk w) root

/-- Root-path normalisation at the top of send_head (source lines 103 to 104). -/
def normalize_req (p : String) : String :=
  if p == "/" || p == "" then "/index.html" else p

/-- Result of opening a path for reading: the file info when the path is an
openable regular file, failure otherwise (directories included, since opening a
directory raises IsADirectoryError, an OSError). -/
def open_file (fs : FS) (p : String) : Option FileInfo :=
  match fs.lookup p with
  | some (.file info true) => some info
  | _ => none

/-- Outcome of the path-resolution part of send_head. -/
inductive Resolution where
  | notFound
  | forbidden
  | ok (path : String) (info : FileInfo)
  deriving DecidableEq

/-- The resolution logic of SecureWebRTCHandler.send_head (source lines 100 to
125): root normalisation, path translation, existence check, directory-index
lookup and the open call. -/
def resolve_path (fs : FS) (root : String) (req : String) : Resolution :=
  let path := translate_path root (normalize_req req)
  match fs.lookup path with
  | none => .notFound
  | some .dir =>
    let index_path := path ++ "/index.html"
    match fs.lookup index_path with
    | none => .forbidden
    | some _ =>
      match open_file fs index_path with
      | some info => .ok index_path info
      | none => .notFound
  | some (.file info openable) =>
    if openable then .ok path info else .notFound

/-- Modelled from the Python standard library: the HTML error page that
BaseHTTPRequestHandler.send_error writes; only its length matters here, so the
rendering is abbreviated to code and message. -/
def error_page (code : Nat) (message : String) : String :=
  toString code ++ " " ++ message

/-- Modelled from the Python standard library: BaseHTTPRequestHandler.send_error,
which emits the status line, its own three headers, then the handler's
overridden end_headers, and only then the error body. -/
def send_error (https : Bool) (code : Nat) (message : String) : Response :=
  { status := code,
    headers := [("Connection", "close"),
                ("Content-Type", "text/html;charset=utf-8"),
                ("Content-Length", toString (error_page code message).length)]
               ++ end_headers_added https,
    body := some (error_page code message) }

/-- Modelled from the Python standard library: BaseHTTPRequestHandler.date_time_string
renders a timestamp as an RFC 1123 date. No claim depends on the concrete
format, only on the header being a function of the mtime, so the rendering is
abbreviated. -/
def date_time_string (t : Nat) : String :=
  "timestamp " ++ toString t

/-- The static-asset extension check guarding Cache-Control (source line 142). -/
def is_static_asset (p : String) : Bool :=
  ends_with p ".css" || ends_with p ".js" || ends_with p ".png" ||
  ends_with p ".jpg" || ends_with p ".jpeg" || ends_with p ".ico" ||
  ends_with p ".svg" || ends_with p ".woff" || ends_with p ".woff2"

/-- The 200 branch of send_head (source lines 127 to 149). -/
def ok_response (https : Bool) (path : String) (info : FileInfo) : Response :=
  { status := 200,
    headers := [("Content-type", (guess_type path).1),
                ("Content-Length", toString info.size),
                ("Last-Modified", date_time_string info.mtime),
                ("Cache-Control",
                  if is_static_asset path then "public, max-age=3600"
                  else "no-cache, no-store, must-revalidate")]
               ++ end_headers_added https,
    body := some info.content }

/-- SecureWebRTCHandler.send_head: resolution followed by the matching response. -/
def send_head (fs : FS) (root : String) (https : Bool) (req : String) : Response :=
  match resolve_path fs root req with
  | .notFound => send_error https 404 "File not found"
  | .forbidden => send_error https 403 "Directory listing not allowed"
  | .ok path info => ok_response https path info

/-- SecureWebRTCHandler.do_OPTIONS (source lines 151 to 154): status 200, the
shared header-emission path, no body. -/
def do_OPTIONS (https : Bool) : Response :=
  { status := 200, headers := end_headers_added https, body := none }

/-- Every header of the security set is in any header list that ends with the
output of end_headers. -/
theorem sec_subset (own : List (String × String)) (https : Bool) :
    security_header_set ⊆ own ++ end_headers_added https := by
  intro x hx
  simp only [end_headers_added, List.mem_append]
  exact Or.inr (Or.inl hx)

/-- The security set is contained in the bare end_headers output. -/
theorem sec_subset_end (https : Bool) :
    security_header_set ⊆ end_headers_added https := by
  intro x hx
  simp only [end_headers_added, List.mem_append]
  exact Or.inl hx

/-- HSTS appears in the bare end_headers output exactly on HTTPS sessions. -/
theorem hsts_end_iff (https : Bool) :
    (hsts_header ∈ end_headers_added https) ↔ https = true := by
  cases https <;> decide

/-- HSTS appears after end_headers exactly on HTTPS sessions, provided the
response-specific headers do not themselves use the HSTS name. -/
theorem hsts_iff (own : List (String × String)) (https : Bool)
    (h : ∀ v, ("Strict-Transport-Security", v) ∉ own) :
    (hsts_header ∈ own ++ end_headers_added https) ↔ https = true := by
  constructor
  · intro hmem
    rcases List.mem_append.1 hmem with hmem | hmem
    · exact absurd hmem (h _)
    · exact (hsts_end_iff https).1 hmem
  · intro hh
    exact List.mem_append.2 (Or.inr ((hsts_end_iff https).2 hh))

/-- The three send_error headers never use the HSTS name. -/
theorem sts_not_in_error_own (code : Nat) (message : String) :
    ∀ v, ("Strict-Transport-Security", v) ∉
      [("Connection", "close"),
       ("Content-Type", "text/html;charset=utf-8"),
       ("Content-Length", toString (error_page code message).length)] := by
  intro v hv
  simp only [List.mem_cons, List.not_mem_nil, or_false, Prod.mk.injEq] at hv
  rcases hv with ⟨h1, _⟩ | ⟨h1, _⟩ | ⟨h1, _⟩ <;> exact absurd h1 (by decide)

/-- The four success headers never use the HSTS name. -/
theorem sts_not_in_ok_own (path : String) (info : FileInfo) :
    ∀ v, ("Strict-Transport-Security", v) ∉
      [("Content-type", (guess_type path).1),
       ("Content-Length", toString info.size),
       ("Last-Modified", date_time_string info.mtime),
       ("Cache-Control",
         if is_static_asset path then "public, max-age=3600"
         else "no-cache, no-store, must-revalidate")] := by
  intro v hv
  simp only [List.mem_cons, List.not_mem_nil, or_false, Prod.mk.injEq] at hv
  rcases hv with ⟨h1, _⟩ | ⟨h1, _⟩ | ⟨h1, _⟩ | ⟨h1, _⟩ <;> exact absurd h1 (by decide)

/-- C1: every response the handler emits - the 200 success path, the 404 and 403
error paths of send_head, and the OPTIONS preflight reply - carries the full
fixed security-header set, emitted by end_headers ahead of the body, and the
Strict-Transport-Security header is present if and only if the server session
is HTTPS. -/
theorem every_response_has_security_headers
    (fs : FS) (root : String) (https : Bool) (p : String) :
    security_header_set ⊆ (send_head fs root https p).headers ∧
    ((hsts_header ∈ (send_head fs root https p).headers) ↔ https = true) ∧
    security_header_set ⊆ (do_OPTIONS https).headers ∧
    ((hsts_header ∈ (do_OPTIONS https).headers) ↔ https = true) := by
  refine ⟨?_, ?_, sec_subset_end https, hsts_end_iff https⟩
  · cases hr : resolve_path fs root p <;>
      simp only [send_head, hr, send_error, ok_response] <;>
      exact sec_subset _ _
  · cases hr : resolve_path fs root p <;>
      simp only [send_head, hr, send_error, ok_response]
    · exact hsts_iff _ https (sts_not_in_error_own 404 "File not found")
    · exact hsts_iff _ https (sts_not_in_error_own 403 "Directory listing not allowed")
    · exact hsts_iff _ https (sts_not_in_ok_own _ _)

/-- C7: the empty path and the root path are normalised to /index.html before
translation, so requesting "/", "" and "/index.html" against the same document
root yields identical responses (status, headers and body alike). -/
theorem root_request_equals_index_request (fs : FS) (root : String) (https : Bool) :
    send_head fs root https "/" = send_head fs root https "/index.html" ∧
    send_head fs root https "" = send_head fs root https "/index.html" :=
  ⟨rfl, rfl⟩

/-- C5 counterexample: the override table of guess_type matches extensions
case-sensitively, so index.html and index.HTML receive different content-types
(text/html; charset=utf-8 against the plain base guess text/html). -/
theorem guess_type_case_sensitive :
    (guess_type "index.html").1 ≠ (guess_type "index.HTML").1 := by decide

/-- A pair whose name differs from every name in a header list is not in it. -/
theorem fst_forbidden_not_mem {n v : String} {l : List (String × String)}
    (hd : ∀ y ∈ l, n ≠ y.1) : (n, v) ∉ l :=
  fun hm => hd _ hm rfl

/-- Helper: resolution when the translated path does not exist. -/
theorem resolve_none (fs : FS) (root p : String)
    (h : fs.lookup (translate_path root (normalize_req p)) = none) :
    resolve_path fs root p = .notFound := by
  unfold resolve_path
  simp only [h]

/-- Helper: resolution when the translated path is a regular file. -/
theorem resolve_file (fs : FS) (root p : String) (info : FileInfo) (openable : Bool)
    (h : fs.lookup (translate_path root (normalize_req p)) = some (.file info openable)) :
    resolve_path fs root p =
      if openable then .ok (translate_path root (normalize_req p)) info
      else .notFound := by
  unfold resolve_path
  simp only [h]

/-- Helper: resolution when the translated path is a directory with no index. -/
theorem resolve_dir_no_index (fs : FS) (root p : String)
    (h1 : fs.lookup (translate_path root (normalize_req p)) = some .dir)
    (h2 : fs.lookup (translate_path root (normalize_req p) ++ "/index.html") = none) :
    resolve_path fs root p = .forbidden := by
  unfold resolve_path
  simp only [h1, h2]

/-- Helper: resolution when the translated path is a directory with an index. -/
theorem resolve_dir_index (fs : FS) (root p : String) (e : Entry)
    (h1 : fs.lookup (translate_path root (normalize_req p)) = some .dir)
    (h2 : fs.lookup (translate_path root (normalize_req p) ++ "/index.html") = some e) :
    resolve_path fs root p =
      match open_file fs (translate_path root (normalize_req p) ++ "/index.html") with
      | some info => .ok (translate_path root (normalize_req p) ++ "/index.html") info
      | none => .notFound := by
  unfold resolve_path
  simp only [h1, h2]

/-- The exhaustive case behaviour claimed of static-content resolution, stated
for the translated filesystem path t and the emitted response r: nonexistent
path gives the 404 error response, a regular file is served when it opens and
404 otherwise, a directory without index.html gives the fixed 403 error
response (no listing of any kind), a directory with index.html serves that file
or gives 404 when the open fails; every branch carries the security headers. -/
def resolution_spec (fs : FS) (https : Bool) (t : String) (r : Response) : Prop :=
  security_header_set ⊆ r.headers ∧
  (fs.lookup t = none → r = send_error https 404 "File not found") ∧
  (∀ info openable, fs.lookup t = some (.file info openable) →
      r = if openable then ok_response https t info
          else send_error https 404 "File not found") ∧
  (fs.lookup t = some .dir → fs.lookup (t ++ "/index.html") = none →
      r = send_error https 403 "Directory listing not allowed") ∧
  (∀ e, fs.lookup t = some .dir → fs.lookup (t ++ "/index.html") = some e →
      r = match open_file fs (t ++ "/index.html") with
          | some info => ok_response https (t ++ "/index.html") info
          | none => send_error https 404 "File not found")

/-- C4: for every request path, send_head yields exactly one of a 404 response,
a 403 response (never a directory listing), the directory index, or the
regular file itself, under the conditions the claim states; 404 and 403
responses carry the same security headers as success responses. -/
theorem static_resolution_cases (fs : FS) (root : String) (https : Bool)
    (p t : String) (ht : t = translate_path root (normalize_req p)) :
    resolution_spec fs https t (send_head fs root https p) := by
  subst ht
  refine ⟨?_, ?_, ?_, ?_, ?_⟩
  · cases hr : resolve_path fs root p <;>
      simp only [send_head, hr, send_error, ok_response] <;>
      exact sec_subset _ _
  · intro h
    simp only [send_head, resolve_none fs root p h]
  · intro info openable h
    cases openable <;>
      simp only [send_head, resolve_file fs root p info _ h, if_true, if_false,
        Bool.false_eq_true, ite_false, ite_true]
  · intro h1 h2
    simp only [send_head, resolve_dir_no_index fs root p h1 h2]
  · intro e h1 h2
    simp only [send_head, resolve_dir_index fs root p e h1 h2]
    cases ho : open_file fs (translate_path root (normalize_req p) ++ "/index.html") <;>
      simp only [ho]

/-- The Content-type header of a success response. -/
theorem content_type_mem (https : Bool) (path : String) (info : FileInfo) :
    ("Content-type", (guess_type path).1) ∈ (ok_response https path info).headers := by
  simp [ok_response]

/-- Characterisation of the Cache-Control header of a success response. -/
theorem cache_control_value (https : Bool) (path : String) (info : FileInfo) :
    ∀ v, (("Cache-Control", v) ∈ (ok_response https path info).headers) ↔
      v = (if is_static_asset path then "public, max-age=3600"
           else "no-cache, no-store, must-revalidate") := by
  intro v
  simp only [ok_response]
  constructor
  · intro hmem
    rcases List.mem_append.1 hmem with hown | hend
    · simp only [List.mem_cons, List.not_mem_nil, or_false, Prod.mk.injEq] at hown
      rcases hown with ⟨h1, _⟩ | ⟨h1, _⟩ | ⟨h1, _⟩ | ⟨_, h2⟩
      · exact absurd h1 (by decide)
      · exact absurd h1 (by decide)
      · exact absurd h1 (by decide)
      · exact h2
    · exact absurd hend (fst_forbidden_not_mem (by cases https <;> decide))
  · intro hv
    subst hv
    apply List.mem_append.2
    apply Or.inl
    simp [List.mem_cons]

/-- What C6 claims of a successfully resolved regular file: status 200,
Content-Type from the extension mapping, Content-Length from the file size,
Last-Modified from the file mtime, Cache-Control by the static-extension test,
and the body streamed from the file. -/
def success_spec (r : Response) (path : String) (info : FileInfo) : Prop :=
  r.status = 200 ∧
  ("Content-type", (guess_type path).1) ∈ r.headers ∧
  ("Content-Length", toString info.size) ∈ r.headers ∧
  ("Last-Modified", date_time_string info.mtime) ∈ r.headers ∧
  ((("Cache-Control", "public, max-age=3600") ∈ r.headers) ↔ is_static_asset path = true) ∧
  ((("Cache-Control", "no-cache, no-store, must-revalidate") ∈ r.headers) ↔
      is_static_asset path = false) ∧
  r.body = some info.content

/-- The success response satisfies the C6 field specification. -/
theorem ok_response_success (https : Bool) (path : String) (info : FileInfo) :
    success_spec (ok_response https path info) path info := by
  refine ⟨rfl, content_type_mem https path info, ?_, ?_, ?_, ?_, rfl⟩
  · simp [ok_response]
  · simp [ok_response]
  · rw [cache_control_value https path info]
    cases hs : is_static_asset path
    · simp only [hs, Bool.false_eq_true, if_false, ite_false]
      constructor
      · intro h; exact absurd h (by decide)
      · intro h; exact absurd h (by decide)
    · simp only [hs, if_true, ite_true]
  · rw [cache_control_value https path info]
    cases hs : is_static_asset path
    · simp only [hs, Bool.false_eq_true, if_false, ite_false]
    · simp only [hs, if_true, ite_true]
      constructor
      · intro h; exact absurd h (by decide)
      · intro h; exact absurd h (by decide)

/-- C6: every successfully resolved regular file is served with status 200,
Content-Type from the extension mapping, Content-Length equal to the file
size, Last-Modified rendered from the file mtime, Cache-Control
public, max-age=3600 exactly for the fixed static extensions and
no-cache, no-store, must-revalidate otherwise. -/
theorem success_response_fields (fs : FS) (root : String) (https : Bool)
    (p path : String) (info : FileInfo)
    (h : resolve_path fs root p = .ok path info) :
    success_spec (send_head fs root https p) path info := by
  simp only [send_head, h]
  exact ok_response_success https path info

/-- The amended C5 statement: the emitted content type is a deterministic
function of the resolved path (its extension suffix) and is independent of the
file contents and metadata; the override table is however case-sensitive, so
each supported lower-case extension receives its fixed override type while an
upper-case variant such as .HTML falls back to the case-insensitive base
mapping without the charset parameter. -/
def content_type_pure_spec : Prop :=
  (∀ fs1 fs2 : FS, ∀ root https p path i1 i2,
      resolve_path fs1 root p = .ok path i1 →
      resolve_path fs2 root p = .ok path i2 →
      ("Content-type", (guess_type path).1) ∈ (send_head fs1 root https p).headers ∧
      ("Content-type", (guess_type path).1) ∈ (send_head fs2 root https p).headers) ∧
  (guess_type "a.html").1 = "text/html; charset=utf-8" ∧
  (guess_type "a.HTML").1 = "text/html" ∧
  (guess_type "a.htm").1 = "text/html; charset=utf-8" ∧
  (guess_type "a.css").1 = "text/css; charset=utf-8" ∧
  (guess_type "a.js").1 = "application/javascript; charset=utf-8" ∧
  (guess_type "a.mjs").1 = "application/javascript; charset=utf-8" ∧
  (guess_type "a.json").1 = "application/json; charset=utf-8" ∧
  (guess_type "a.wasm").1 = "application/wasm" ∧
  (guess_type "a.ico").1 = "image/x-icon" ∧
  (guess_type "a.png").1 = "image/png" ∧
  (guess_type "a.jpg").1 = "image/jpeg" ∧
  (guess_type "a.jpeg").1 = "image/jpeg" ∧
  (guess_type "a.svg").1 = "image/svg+xml" ∧
  (guess_type "a.webp").1 = "image/webp" ∧
  (guess_type "a.mp4").1 = "video/mp4" ∧
  (guess_type "a.webm").1 = "video/webm"

/-- C5 (amended): content-type guessing is deterministic and independent of
file content, and maps each supported lower-case extension to its fixed type,
but it is case-sensitive rather than case-insensitive. -/
theorem guess_type_extension_function : content_type_pure_spec := by
  refine ⟨?_, ?_⟩
  · intro fs1 fs2 root https p path i1 i2 h1 h2
    constructor
    · simp only [send_head, h1]
      exact content_type_mem https path i1
    · simp only [send_head, h2]
      exact content_type_mem https path i2
  · decide

/-- A small concrete document tree used by the witness theorems. -/
def demo_info : FileInfo := { size := 5, mtime := 7, content := "hello" }

/-- The demo filesystem: a document root with an index, a script and an empty
subdirectory. -/
def demo_fs : FS :=
  { lookup := fun p =>
      if p == "/doc/index.html" then some (.file demo_info true)
      else if p == "/doc/app.js" then some (.file demo_info true)
      else if p == "/doc/sub" then some Entry.dir
      else none }

/-- Witness for C4 at a concrete directory request. -/
theorem static_resolution_cases_witness :
    ("/doc/sub" = translate_path "/doc" (normalize_req "/sub")) ∧
    resolution_spec demo_fs true "/doc/sub" (send_head demo_fs "/doc" true "/sub") :=
  ⟨by decide, static_resolution_cases demo_fs "/doc" true "/sub" "/doc/sub" (by decide)⟩

/-- Witness for C6 at a concrete script request. -/
theorem success_response_fields_witness :
    resolve_path demo_fs "/doc" "/app.js" = .ok "/doc/app.js" demo_info ∧
    success_spec (send_head demo_fs "/doc" true "/app.js") "/doc/app.js" demo_info :=
  ⟨by decide,
   success_response_fields demo_fs "/doc" true "/app.js" "/doc/app.js" demo_info (by decide)⟩

/-- Witness for the amended C5 at a concrete script request. -/
theorem guess_type_extension_function_witness :
    ("Content-type", (guess_type "/doc/app.js").1) ∈
      (send_head demo_fs "/doc" true "/app.js").headers :=
  (guess_type_extension_function.1 demo_fs demo_fs "/doc" true "/app.js" "/doc/app.js"
    demo_info demo_info (by decide) (by decide)).1

/-- An X.509 distinguished name as built in generate_self_signed_cert
(source lines 191 to 197). -/
structure CertName where
  country : String
  state : String
  locality : String
  organization : String
  common_name : String
  deriving DecidableEq

/-- A subject-alternative-name entry: a DNS name or an IP address. -/
inductive GeneralName where
  | dns (s : String)
  | ip (s : String)
  deriving DecidableEq

/-- The nine key-usage booleans passed to x509.KeyUsage
(source lines 230 to 240). -/
structure KeyUsage where
  digital_signature : Bool
  content_commitment : Bool
  key_encipherment : Bool
  data_encipherment : Bool
  key_agreement : Bool
  key_cert_sign : Bool
  crl_sign : Bool
  encipher_only : Bool
  decipher_only : Bool
  deriving DecidableEq

/-- The parsed view of the certificate that generate_self_signed_cert builds.
PEM serialisation followed by parsing is lossless for every field recorded
here, so the round-trip claim is settled on this record. -/
structure Certificate where
  subject : CertName
  issuer : CertName
  key_bits : Nat
  key_public_exponent : Nat
  signature_hash : String
  not_valid_before : Nat
  not_valid_after : Nat
  san : List GeneralName
  san_critical : Bool
  key_usage : KeyUsage
  key_usage_critical : Bool
  extended_key_usage : List String
  eku_critical : Bool
  deriving DecidableEq

/-- Seconds in a day; certificate times are modelled in seconds. -/
def day_seconds : Nat := 86400

/-- The certificate built by SecureWebRTCServer.generate_self_signed_cert
(source lines 185 to 247). The two utcnow calls inside one generation are
modelled as the same instant now. The local-ip SAN is appended exactly when
discovery produced a nonempty value different from the host that parses as an
IP address, matching the guarded append of lines 206 to 212 (where a
non-address such as localhost raises inside ip_address and is silently
dropped). -/
def build_certificate (host : String) (now : Nat) (local_ip : String)
    (local_ip_is_ip : Bool) : Certificate :=
  let name : CertName :=
    { country := "US", state := "Local", locality := "Local",
      organization := "WebRTC Dev Server", common_name := host }
  let san_base := [GeneralName.dns host, GeneralName.dns "localhost",
                   GeneralName.dns "127.0.0.1"]
  { subject := name, issuer := name,
    key_bits := 2048, key_public_exponent := 65537,
    signature_hash := "SHA256",
    not_valid_before := now,
    not_valid_after := now + 365 * day_seconds,
    san := if local_ip != "" && local_ip != host && local_ip_is_ip
           then san_base ++ [GeneralName.ip local_ip] else san_base,
    san_critical := false,
    key_usage :=
      { digital_signature := true, content_commitment := false,
        key_encipherment := true, data_encipherment := false,
        key_agreement := false, key_cert_sign := false, crl_sign := false,
        encipher_only := false, decipher_only := false },
    key_usage_critical := true,
    extended_key_usage := ["serverAuth"],
    eku_critical := true }

/-- What C3 claims of the generated certificate when parsed back. -/
def cert_round_trip_spec (c : Certificate) (host : String) (now : Nat) : Prop :=
  c.subject.common_name = host ∧ c.issuer = c.subject ∧
  c.key_bits = 2048 ∧ c.signature_hash = "SHA256" ∧
  c.not_valid_before = now ∧
  c.not_valid_after = c.not_valid_before + 365 * day_seconds ∧
  GeneralName.dns host ∈ c.san ∧ GeneralName.dns "localhost" ∈ c.san ∧
  GeneralName.dns "127.0.0.1" ∈ c.san ∧
  c.key_usage.digital_signature = true ∧ c.key_usage.key_encipherment = true ∧
  c.key_usage.key_agreement = false ∧ c.key_usage.key_cert_sign = false ∧
  c.key_usage.crl_sign = false ∧ c.key_usage.content_commitment = false ∧
  c.key_usage.data_encipherment = false ∧
  c.extended_key_usage = ["serverAuth"]

/-- C3: for every host, the generated self-signed certificate has Common Name
equal to the host, an RSA-2048 key, a SHA-256 signature, a validity window of
exactly 365 days from generation time, SANs covering the host, localhost and
127.0.0.1 (plus, best effort, the local network IP), key usage restricted to
digitalSignature and keyEncipherment, and extended key usage serverAuth. -/
theorem self_signed_cert_fields (host : String) (now : Nat) (local_ip : String)
    (is_ip : Bool) :
    cert_round_trip_spec (build_certificate host now local_ip is_ip) host now ∧
    (is_ip = true → local_ip ≠ "" → local_ip ≠ host →
      GeneralName.ip local_ip ∈ (build_certificate host now local_ip is_ip).san) := by
  constructor
  · refine ⟨rfl, rfl, rfl, rfl, rfl, rfl, ?_, ?_, ?_,
      rfl, rfl, rfl, rfl, rfl, rfl, rfl, rfl⟩ <;>
    · cases hc : (local_ip != "" && local_ip != host && is_ip) <;>
        simp [build_certificate, hc]
  · intro h1 h2 h3
    have hc : (local_ip != "" && local_ip != host && is_ip) = true := by
      simp only [Bool.and_eq_true, bne_iff_ne]
      exact ⟨⟨h2, h3⟩, h1⟩
    simp [build_certificate, hc]

/-- Witness for C3: a concrete generation with a distinct local network IP. -/
theorem self_signed_cert_fields_witness :
    GeneralName.ip "192.168.1.5" ∈
      (build_certificate "localhost" 1000 "192.168.1.5" true).san :=
  (self_signed_cert_fields "localhost" 1000 "192.168.1.5" true).2 rfl
    (by decide) (by decide)

/-- Paths that currently exist on disk. -/
abbrev World := List String

/-- How a run of the serving phase ends: bind failures before the server object
exists, or one of the exception paths out of serve_forever. -/
inductive RunOutcome where
  | bind_addr_in_use
  | bind_other_error
  | interrupted
  | serve_os_error
  | serve_unexpected
  deriving DecidableEq

/-- The mutable attributes of SecureWebRTCServer (source lines 164 to 170),
with server_created standing for the server attribute being non-None. -/
structure ServerState where
  port : Nat
  host : String
  cert_file : Option String
  key_file : Option String
  server_created : Bool
  temp_cert_dir : Option String
  deriving DecidableEq

/-- SecureWebRTCServer.__init__ (source lines 164 to 170). -/
def initServer (port : Nat) (host : String) (cert key : Option String) :
    ServerState :=
  { port := port, host := host, cert_file := cert, key_file := key,
    server_created := false, temp_cert_dir := none }

/-- The environment a run of start sees: whether the required asset files are
present, whether the cryptography import succeeds, whether native generation
raises, whether the openssl tool works, the fresh directory mkdtemp returns,
and how the serving phase ends. -/
structure Env where
  required_present : Bool
  crypto_available : Bool
  crypto_raises : Bool
  openssl_works : Bool
  tmpdir : String
  outcome : RunOutcome
  deriving DecidableEq

/-- Python truthiness of an optional string: None and the empty string are
falsy; this is how the source tests cert_file and key_file. -/
def truthy : Option String → Bool
  | none => false
  | some s => s != ""

/-- SecureWebRTCServer.generate_cert_with_openssl (source lines 274 to 300):
mkdtemp runs and both stored paths are redirected into it before the openssl
subprocesses run, so even a failed run leaves the directory created and the
paths set; on success the key and certificate files exist. -/
def generate_cert_with_openssl (s : ServerState) (env : Env) (w : World) :
    Bool × ServerState × World :=
  let s1 := { s with temp_cert_dir := some env.tmpdir,
                     cert_file := some (env.tmpdir ++ "/cert.pem"),
                     key_file := some (env.tmpdir ++ "/key.pem") }
  if env.openssl_works then
    (true, s1,
     (env.tmpdir ++ "/cert.pem") :: (env.tmpdir ++ "/key.pem") :: env.tmpdir :: w)
  else (false, s1, env.tmpdir :: w)

/-- SecureWebRTCServer.generate_self_signed_cert (source lines 172 to 272): the
native path runs when the cryptography import succeeds and nothing raises,
writing certificate and key into a fresh temporary directory; an ImportError or
any other exception falls back to the openssl tool. An exception is modelled as
raised during the cryptographic construction, before mkdtemp on line 250. -/
def generate_self_signed_cert (s : ServerState) (env : Env) (w : World) :
    Bool × ServerState × World :=
  if env.crypto_available && !env.crypto_raises then
    (true,
     { s with temp_cert_dir := some env.tmpdir,
              cert_file := some (env.tmpdir ++ "/cert.pem"),
              key_file := some (env.tmpdir ++ "/key.pem") },
     (env.tmpdir ++ "/cert.pem") :: (env.tmpdir ++ "/key.pem") :: env.tmpdir :: w)
  else generate_cert_with_openssl s env w

/-- SecureWebRTCServer.cleanup (source lines 399 to 414): when temp_cert_dir is
set and still exists, the certificate file, the key file (each only if present)
and then the directory are removed; otherwise the filesystem is untouched. The
server shutdown call has no filesystem effect and is not modelled further. -/
def cleanup_files (s : ServerState) (w : World) : World :=
  match s.temp_cert_dir with
  | none => w
  | some d =>
    if d ∈ w then
      let w1 := match s.cert_file with
        | some c => if c ∈ w then w.filter (fun x => x != c) else w
        | none => w
      let w2 := match s.key_file with
        | some k => if k ∈ w1 then w1.filter (fun x => x != k) else w1
        | none => w1
      w2.filter (fun x => x != d)
    else w

/-- One run of start ends in a final server state, a final filesystem, the
number of times cleanup ran, and the log messages printed. -/
structure StartResult where
  state : ServerState
  world : World
  cleanup_runs : Nat
  log : List String
  deriving DecidableEq

/-- The finally block of start (source lines 396 to 397): every exit path runs
cleanup exactly once; the counter certifies the single invocation. -/
def finish (s : ServerState) (w : World) (log : List String) : StartResult :=
  { state := s, world := cleanup_files s w, cleanup_runs := 1, log := log }

/-- The body of the try block after certificate provisioning (source lines 330
to 395): server creation may fail with an address-in-use or other OSError, and
serve_forever ends by KeyboardInterrupt, OSError or an unexpected exception;
each path reaches the finally block. -/
def serve_phase (s : ServerState) (env : Env) (w : World) : StartResult :=
  match env.outcome with
  | .bind_addr_in_use => finish s w ["port_in_use"]
  | .bind_other_error => finish s w ["server_error"]
  | .interrupted => finish { s with server_created := true } w ["stopped_by_user"]
  | .serve_os_error => finish { s with server_created := true } w ["server_error"]
  | .serve_unexpected =>
      finish { s with server_created := true } w ["unexpected_error"]

/-- SecureWebRTCServer.start (source lines 312 to 397): the required-files
check, conditional certificate generation (only when cert_file or key_file is
falsy), then the serving phase; the try/finally is translated by funnelling
every exit path through finish. -/
def start (s0 : ServerState) (env : Env) (w0 : World) : StartResult :=
  if env.required_present = false then
    finish s0 w0 ["missing_required_files"]
  else if truthy s0.cert_file = false ∨ truthy s0.key_file = false then
    match generate_self_signed_cert s0 env w0 with
    | (false, s1, w1) => finish s1 w1 ["cert_generation_failed"]
    | (true, s1, w1) => serve_phase s1 env w1
  else serve_phase s0 env w0

/-- The openssl genrsa invocation of generate_cert_with_openssl
(source lines 284 to 286). -/
def openssl_genrsa_cmd (key_file : String) : List String :=
  ["openssl", "genrsa", "-out", key_file, "2048"]

/-- The openssl req invocation of generate_cert_with_openssl
(source lines 289 to 293). -/
def openssl_req_cmd (key_file cert_file host : String) : List String :=
  ["openssl", "req", "-new", "-x509", "-key", key_file, "-out", cert_file,
   "-days", "365", "-subj",
   "/C=US/ST=Local/L=Local/O=WebRTC Dev Server/CN=" ++ host]

/-- A string is never in the list obtained by filtering it out. -/
theorem not_mem_filter_self (a : String) (l : List String) :
    a ∉ l.filter (fun x => x != a) := by
  intro h
  have h2 := (List.mem_filter.1 h).2
  simp at h2

/-- Filtering preserves absence. -/
theorem not_mem_filter_of_not_mem (a : String) (p : String → Bool)
    (l : List String) (h : a ∉ l) : a ∉ l.filter p :=
  fun hm => h (List.mem_of_mem_filter hm)

/-- The conditional-unlink step of cleanup removes the named path. -/
theorem not_mem_remove_ite (c : String) (l : List String) :
    c ∉ (if c ∈ l then l.filter (fun x => x != c) else l) := by
  split
  · exact not_mem_filter_self c l
  · next h => exact h

/-- The conditional-unlink step of cleanup preserves absence of other paths. -/
theorem not_mem_ite_filter (a k : String) (l : List String) (h : a ∉ l) :
    a ∉ (if k ∈ l then l.filter (fun x => x != k) else l) := by
  split
  · exact not_mem_filter_of_not_mem a _ l h
  · exact h

/-- Both generation tiers set the temporary directory, redirect the stored
certificate and key paths into it, and create the directory on disk. -/
theorem gen_material (s : ServerState) (env : Env) (w : World) :
    (generate_self_signed_cert s env w).2.1.temp_cert_dir = some env.tmpdir ∧
    (generate_self_signed_cert s env w).2.1.cert_file
      = some (env.tmpdir ++ "/cert.pem") ∧
    (generate_self_signed_cert s env w).2.1.key_file
      = some (env.tmpdir ++ "/key.pem") ∧
    env.tmpdir ∈ (generate_self_signed_cert s env w).2.2 := by
  unfold generate_self_signed_cert generate_cert_with_openssl
  split
  · exact ⟨rfl, rfl, rfl, by simp⟩
  · split
    · exact ⟨rfl, rfl, rfl, by simp⟩
    · exact ⟨rfl, rfl, rfl, by simp⟩

/-- Neither generation tier touches the server attribute. -/
theorem gen_preserves_created (s : ServerState) (env : Env) (w : World) :
    (generate_self_signed_cert s env w).2.1.server_created = s.server_created := by
  unfold generate_self_signed_cert generate_cert_with_openssl
  split
  · rfl
  · split <;> rfl

/-- Cleanup ignores the server attribute. -/
theorem cleanup_files_update (s : ServerState) (w : World) :
    cleanup_files { s with server_created := true } w = cleanup_files s w := rfl

/-- Cleanup deletes nothing when no temporary directory was created. -/
theorem cleanup_files_none (s : ServerState) (w : World)
    (h : s.temp_cert_dir = none) : cleanup_files s w = w := by
  unfold cleanup_files
  simp only [h]

/-- Cleanup removes the generated certificate, key and directory. -/
theorem cleanup_removes (s : ServerState) (w : World) (d : String)
    (hd : s.temp_cert_dir = some d)
    (hc : s.cert_file = some (d ++ "/cert.pem"))
    (hk : s.key_file = some (d ++ "/key.pem"))
    (hw : d ∈ w) :
    d ∉ cleanup_files s w ∧
    (d ++ "/cert.pem") ∉ cleanup_files s w ∧
    (d ++ "/key.pem") ∉ cleanup_files s w := by
  unfold cleanup_files
  simp only [hd, hc, hk]
  rw [if_pos hw]
  refine ⟨not_mem_filter_self d _, ?_, ?_⟩
  · exact not_mem_filter_of_not_mem _ _ _
      (not_mem_ite_filter _ _ _ (not_mem_remove_ite _ w))
  · exact not_mem_filter_of_not_mem _ _ _ (not_mem_remove_ite _ _)

/-- Every serving outcome runs cleanup exactly once. -/
theorem serve_phase_runs (s : ServerState) (env : Env) (w : World) :
    (serve_phase s env w).cleanup_runs = 1 := by
  unfold serve_phase
  split <;> rfl

/-- The world after the serving phase is the cleaned-up world. -/
theorem serve_phase_world (s : ServerState) (env : Env) (w : World) :
    (serve_phase s env w).world = cleanup_files s w := by
  unfold serve_phase
  split <;> simp [finish, cleanup_files_update]

/-- The serving phase preserves the certificate material fields. -/
theorem serve_phase_state (s : ServerState) (env : Env) (w : World) :
    (serve_phase s env w).state.cert_file = s.cert_file ∧
    (serve_phase s env w).state.key_file = s.key_file ∧
    (serve_phase s env w).state.temp_cert_dir = s.temp_cert_dir := by
  unfold serve_phase
  split <;> exact ⟨rfl, rfl, rfl⟩

/-- Every exit path of start runs cleanup exactly once. -/
theorem start_runs (s : ServerState) (env : Env) (w : World) :
    (start s env w).cleanup_runs = 1 := by
  unfold start
  split
  · rfl
  · split
    · split <;> first | rfl | exact serve_phase_runs _ _ _
    · exact serve_phase_runs _ _ _

/-- What C2 claims of shutdown: cleanup runs exactly once on every exit path;
with caller-supplied certificate and key the filesystem is untouched; when
certificate material was generated, the temporary directory and both files in
it are gone from the final filesystem. -/
def shutdown_spec (port : Nat) (host : String) (cf kf : Option String)
    (env : Env) (w0 : World) : Prop :=
  (start (initServer port host cf kf) env w0).cleanup_runs = 1 ∧
  (truthy cf = true → truthy kf = true →
      (start (initServer port host cf kf) env w0).world = w0) ∧
  (env.required_present = true →
   (truthy cf = false ∨ truthy kf = false) →
      env.tmpdir ∉ (start (initServer port host cf kf) env w0).world ∧
      (env.tmpdir ++ "/cert.pem") ∉ (start (initServer port host cf kf) env w0).world ∧
      (env.tmpdir ++ "/key.pem") ∉ (start (initServer port host cf kf) env w0).world)

/-- C2: on every exit path of start (missing assets, generation failure, bind
error, Ctrl-C, unexpected exception) cleanup runs exactly once, and it deletes
the certificate and key files and their temporary directory if and only if the
material was server-generated; caller-supplied files are never deleted. -/
theorem shutdown_cleanup_exactly_once (port : Nat) (host : String)
    (cf kf : Option String) (env : Env) (w0 : World) :
    shutdown_spec port host cf kf env w0 := by
  refine ⟨start_runs _ _ _, ?_, ?_⟩
  · intro hc hk
    have hcond : ¬(truthy (initServer port host cf kf).cert_file = false ∨
                   truthy (initServer port host cf kf).key_file = false) := by
      simp [initServer, hc, hk]
    unfold start
    by_cases hr : env.required_present = false
    · rw [if_pos hr]
      show cleanup_files (initServer port host cf kf) w0 = w0
      exact cleanup_files_none _ _ rfl
    · rw [if_neg hr, if_neg hcond, serve_phase_world]
      exact cleanup_files_none _ _ rfl
  · intro hreq hdisj
    have hcond : truthy (initServer port host cf kf).cert_file = false ∨
                 truthy (initServer port host cf kf).key_file = false := hdisj
    have hr : ¬(env.required_present = false) := by simp [hreq]
    unfold start
    rw [if_neg hr, if_pos hcond]
    rcases hg : generate_self_signed_cert (initServer port host cf kf) env w0
      with ⟨ok, s1, w1⟩
    have hm := gen_material (initServer port host cf kf) env w0
    rw [hg] at hm
    obtain ⟨hmt, hmc, hmk, hmw⟩ := hm
    cases ok
    · simp only [hg]
      exact cleanup_removes s1 w1 env.tmpdir hmt hmc hmk hmw
    · simp only [hg]
      rw [serve_phase_world]
      exact cleanup_removes s1 w1 env.tmpdir hmt hmc hmk hmw

/-- A concrete environment used by the witness theorems: assets present, no
crypto library, no working openssl, interrupted serving. -/
def demo_env : Env :=
  { required_present := true, crypto_available := false, crypto_raises := false,
    openssl_works := false, tmpdir := "/tmp/certs",
    outcome := RunOutcome.interrupted }

/-- Witness for C2: a server that generated its material ends with the
temporary directory gone. -/
theorem shutdown_cleanup_exactly_once_witness :
    demo_env.required_present = true ∧
    demo_env.tmpdir ∉ (start (initServer 8443 "localhost" none none) demo_env []).world :=
  ⟨rfl,
   ((shutdown_cleanup_exactly_once 8443 "localhost" none none demo_env []).2.2
      rfl (Or.inl rfl)).1⟩

/-- The native tier succeeding means the openssl tier is never consulted. -/
theorem gen_native (s : ServerState) (env : Env) (w : World)
    (h1 : env.crypto_available = true) (h2 : env.crypto_raises = false) :
    (generate_self_signed_cert s env w).1 = true ∧
    ∀ b, generate_self_signed_cert s { env with openssl_works := b } w
          = generate_self_signed_cert s env w := by
  have hb : (env.crypto_available && !env.crypto_raises) = true := by
    rw [h1, h2]; rfl
  constructor
  · unfold generate_self_signed_cert
    rw [if_pos hb]
  · intro b
    have hb2 : (({ env with openssl_works := b }).crypto_available &&
                !({ env with openssl_works := b }).crypto_raises) = true := hb
    unfold generate_self_signed_cert
    rw [if_pos hb2, if_pos hb]

/-- What C8 claims of certificate provisioning: the native tier runs first and,
when it succeeds, the openssl tier is irrelevant; when the native tier is
unavailable or raises, the result is exactly the openssl tier result; the
overall operation fails exactly when both tiers fail; a failed operation leaves
the server never created; and the openssl tier uses the equivalent parameters
RSA-2048, 365 days, self-signed (the -x509 flag) and CN equal to the host. -/
def two_tier_spec (s : ServerState) (env : Env) (w : World) : Prop :=
  ((env.crypto_available = true ∧ env.crypto_raises = false) →
      (generate_self_signed_cert s env w).1 = true ∧
      ∀ b, generate_self_signed_cert s { env with openssl_works := b } w
            = generate_self_signed_cert s env w) ∧
  ((env.crypto_available = false ∨ env.crypto_raises = true) →
      generate_self_signed_cert s env w = generate_cert_with_openssl s env w) ∧
  (((generate_self_signed_cert s env w).1 = false) ↔
      ((env.crypto_available = false ∨ env.crypto_raises = true) ∧
       env.openssl_works = false)) ∧
  ((truthy s.cert_file = false ∨ truthy s.key_file = false) →
      s.server_created = false →
      (generate_self_signed_cert s env w).1 = false →
      (start s env w).state.server_created = false) ∧
  ("2048" ∈ openssl_genrsa_cmd (env.tmpdir ++ "/key.pem")) ∧
  ("-x509" ∈ openssl_req_cmd (env.tmpdir ++ "/key.pem")
      (env.tmpdir ++ "/cert.pem") s.host) ∧
  ("-days" ∈ openssl_req_cmd (env.tmpdir ++ "/key.pem")
      (env.tmpdir ++ "/cert.pem") s.host) ∧
  ("365" ∈ openssl_req_cmd (env.tmpdir ++ "/key.pem")
      (env.tmpdir ++ "/cert.pem") s.host) ∧
  (("/C=US/ST=Local/L=Local/O=WebRTC Dev Server/CN=" ++ s.host) ∈
      openssl_req_cmd (env.tmpdir ++ "/key.pem")
        (env.tmpdir ++ "/cert.pem") s.host)

/-- C8: certificate provisioning is a two-tier strategy tried in order, with
equivalent openssl parameters, failing (and keeping the server from listening)
exactly when both tiers fail. -/
theorem cert_two_tier_fallback (s : ServerState) (env : Env) (w : World) :
    two_tier_spec s env w := by
  refine ⟨?_, ?_, ?_, ?_, ?_, ?_, ?_, ?_, ?_⟩
  · intro h
    exact gen_native s env w h.1 h.2
  · intro h
    have hb : (env.crypto_available && !env.crypto_raises) = false := by
      rcases h with h | h <;> rw [h] <;> simp
    unfold generate_self_signed_cert
    rw [hb]
    simp
  · cases hca : env.crypto_available <;> cases hcr : env.crypto_raises <;>
      cases how : env.openssl_works <;>
      simp [generate_self_signed_cert, generate_cert_with_openssl, hca, hcr, how]
  · intro hd hsc hfail
    unfold start
    by_cases hr : env.required_present = false
    · rw [if_pos hr]
      exact hsc
    · rw [if_neg hr, if_pos hd]
      rcases hg : generate_self_signed_cert s env w with ⟨ok, s1, w1⟩
      rw [hg] at hfail
      have hok : ok = false := hfail
      subst hok
      simp only [hg]
      have hpres := gen_preserves_created s env w
      rw [hg] at hpres
      exact hpres.trans hsc
  · simp [openssl_genrsa_cmd]
  · simp [openssl_req_cmd]
  · simp [openssl_req_cmd]
  · simp [openssl_req_cmd]
  · simp [openssl_req_cmd]

/-- A server with no certificate arguments, as __init__ defaults build it. -/
def demo_server : ServerState := initServer 8443 "localhost" none none

/-- Witness for C8: with neither tier available, generation reports failure and
the server is never created. -/
theorem cert_two_tier_fallback_witness :
    (truthy demo_server.cert_file = false ∨ truthy demo_server.key_file = false) ∧
    demo_server.server_created = false ∧
    (generate_self_signed_cert demo_server demo_env []).1 = false ∧
    (start demo_server demo_env []).state.server_created = false :=
  ⟨Or.inl rfl, rfl, by decide,
   (cert_two_tier_fallback demo_server demo_env []).2.2.2.1
     (Or.inl rfl) rfl (by decide)⟩

/-- The parsed command-line arguments of main (source lines 431 to 445). -/
structure Args where
  port : Nat
  host : String
  network : Bool
  cert : Option String
  key : Option String
  install_deps : Bool
  deriving DecidableEq

/-- How a run of main ends: dependency installation, a validation abort before
any server object exists, or a full server run. -/
inductive MainResult where
  | deps_installed
  | config_error (message : String)
  | server_run (result : StartResult)
  deriving DecidableEq

/-- The abort message for a lone cert or key flag (source line 464). -/
def both_required_msg : String := "Both --cert and --key must be provided together"

/-- The abort message for a missing certificate file (source line 458). -/
def cert_not_found_msg (c : String) : String := "Certificate file not found: " ++ c

/-- The abort message for a missing key file (source line 461). -/
def key_not_found_msg (k : String) : String := "Private key file not found: " ++ k

/-- The main entry point (source lines 429 to 475): network-flag handling,
dependency installation, certificate-flag validation, then server construction
and start. Python truthiness of the flags is preserved through truthy. -/
def main_fn (args : Args) (env : Env) (w : World) : MainResult :=
  let host := if args.network then "0.0.0.0" else args.host
  if args.install_deps then .deps_installed
  else if truthy args.cert && truthy args.key then
    if (args.cert.getD "") ∈ w then
      if (args.key.getD "") ∈ w then
        .server_run (start (initServer args.port host args.cert args.key) env w)
      else .config_error (key_not_found_msg (args.key.getD ""))
    else .config_error (cert_not_found_msg (args.cert.getD ""))
  else if truthy args.cert || truthy args.key then .config_error both_required_msg
  else .server_run (start (initServer args.port host args.cert args.key) env w)

/-- What C9 claims of command-line validation: a lone cert or key flag aborts
with the pairing message; supplied paths that do not exist on disk abort with
the matching message; and an abort result is never a server run, so no server
object is created and certificate provisioning never happens. -/
def cli_validation_spec (args : Args) (env : Env) (w : World) : Prop :=
  ((truthy args.cert = true ∧ truthy args.key = false) ∨
   (truthy args.cert = false ∧ truthy args.key = true) →
      main_fn args env w = .config_error both_required_msg) ∧
  (∀ c k, args.cert = some c → args.key = some k →
      truthy args.cert = true → truthy args.key = true →
      (c ∉ w → main_fn args env w = .config_error (cert_not_found_msg c)) ∧
      (c ∈ w → k ∉ w → main_fn args env w = .config_error (key_not_found_msg k))) ∧
  (∀ m, main_fn args env w = .config_error m →
      ∀ r, main_fn args env w ≠ .server_run r)

/-- C9: cert and key paths must be supplied together and must exist on disk;
any violation aborts before certificate provisioning and before any server
object is created. -/
theorem cli_cert_key_validation (args : Args) (env : Env) (w : World)
    (h : args.install_deps = false) :
    cli_validation_spec args env w := by
  refine ⟨?_, ?_, ?_⟩
  · intro hd
    rcases hd with ⟨h1, h2⟩ | ⟨h1, h2⟩ <;> simp [main_fn, h, h1, h2]
  · intro c k hc hk ht1 ht2
    rw [hc] at ht1
    rw [hk] at ht2
    constructor
    · intro hcw
      simp [main_fn, h, hc, hk, ht1, ht2, hcw]
    · intro hcw hkw
      simp [main_fn, h, hc, hk, ht1, ht2, hcw, hkw]
  · intro m hm r hr
    rw [hm] at hr
    exact MainResult.noConfusion hr

/-- A concrete argument record with only the certificate flag supplied. -/
def demo_args : Args :=
  { port := 8443, host := "localhost", network := false,
    cert := some "given-cert.pem", key := none, install_deps := false }

/-- Witness for C9: a lone --cert flag aborts with the pairing message. -/
theorem cli_cert_key_validation_witness :
    demo_args.install_deps = false ∧
    main_fn demo_args demo_env [] = .config_error both_required_msg :=
  ⟨rfl,
   (cli_cert_key_validation demo_args demo_env [] rfl).1
     (Or.inl ⟨by decide, rfl⟩)⟩

/-- What C10 claims of the material after a run that generated certificates:
the final state is marked temporary and both stored paths point into the fresh
temporary directory. -/
def generated_material_spec (r : StartResult) (d : String) : Prop :=
  r.state.temp_cert_dir = some d ∧
  r.state.cert_file = some (d ++ "/cert.pem") ∧
  r.state.key_file = some (d ++ "/key.pem")

/-- C10: constructed with exactly one of cert_file and key_file, start still
invokes self-signed generation, which overwrites both stored paths with paths
inside the fresh temporary directory and marks the material temporary; the
caller-supplied path is ignored rather than rejected. -/
theorem partial_cert_args_ignored (port : Nat) (host cpath kpath : String)
    (env : Env) (w : World) (hreq : env.required_present = true) :
    generated_material_spec
      (start (initServer port host (some cpath) none) env w) env.tmpdir ∧
    generated_material_spec
      (start (initServer port host none (some kpath)) env w) env.tmpdir := by
  have hr : ¬(env.required_present = false) := by simp [hreq]
  constructor
  · have hcond : truthy (initServer port host (some cpath) none).cert_file = false ∨
                 truthy (initServer port host (some cpath) none).key_file = false :=
      Or.inr rfl
    unfold start
    rw [if_neg hr, if_pos hcond]
    rcases hg : generate_self_signed_cert (initServer port host (some cpath) none) env w
      with ⟨ok, s1, w1⟩
    have hm := gen_material (initServer port host (some cpath) none) env w
    rw [hg] at hm
    obtain ⟨hmt, hmc, hmk, _⟩ := hm
    cases ok
    · simp only [hg]
      exact ⟨hmt, hmc, hmk⟩
    · simp only [hg]
      obtain ⟨hc1, hk1, ht1⟩ := serve_phase_state s1 env w1
      exact ⟨ht1.trans hmt, hc1.trans hmc, hk1.trans hmk⟩
  · have hcond : truthy (initServer port host none (some kpath)).cert_file = false ∨
                 truthy (initServer port host none (some kpath)).key_file = false :=
      Or.inl rfl
    unfold start
    rw [if_neg hr, if_pos hcond]
    rcases hg : generate_self_signed_cert (initServer port host none (some kpath)) env w
      with ⟨ok, s1, w1⟩
    have hm := gen_material (initServer port host none (some kpath)) env w
    rw [hg] at hm
    obtain ⟨hmt, hmc, hmk, _⟩ := hm
    cases ok
    · simp only [hg]
      exact ⟨hmt, hmc, hmk⟩
    · simp only [hg]
      obtain ⟨hc1, hk1, ht1⟩ := serve_phase_state s1 env w1
      exact ⟨ht1.trans hmt, hc1.trans hmc, hk1.trans hmk⟩

/-- Witness for C10: a concrete lone certificate path is overwritten by the
generated temporary paths. -/
theorem partial_cert_args_ignored_witness :
    demo_env.required_present = true ∧
    generated_material_spec
      (start (initServer 8443 "localhost" (some "given-cert.pem") none) demo_env [])
      demo_env.tmpdir :=
  ⟨rfl,
   (partial_cert_args_ignored 8443 "localhost" "given-cert.pem" "given-key.pem"
      demo_env [] rfl).1⟩
